import Mathlib

/-!
Verification of the DiagramRenderer core (src/diagram-renderer.js).

The JavaScript source is shallowly embedded: JS numbers are modelled as
exact rationals at the claim-relevant inputs, with non-finite results
(NaN, Infinity, i.e. division by zero) modelled by `Option`; DOM side
effects (appending children to a container) are modelled as lists of
emitted nodes or primitives; `try`/`catch` is modelled by `Except`.
-/

/-- Division as JavaScript produces it for finite operands: a zero
divisor yields a non-finite number (`Infinity` or `NaN`), modelled as
`none`. -/
def jsDiv (a b : ℚ) : Option ℚ :=
  if b = 0 then none else some (a / b)

/-- The JavaScript `v || d` idiom on an optional numeric field: `d` is
substituted when the field is missing or `0` (both falsy). -/
def jsOrQ (v : Option ℚ) (d : ℚ) : ℚ :=
  match v with
  | none => d
  | some x => if x = 0 then d else x

/-- Truthiness of an optional string field: present and non-empty. -/
def jsTruthyStr (v : Option String) : Bool :=
  match v with
  | none => false
  | some s => s ≠ ""

/-- The JavaScript `a || b || c` idiom over optional strings, as used by
the dispatcher's catch block `spec.data?.description || spec.title ||
"图形渲染失败"`. -/
def jsOrStr (v : Option String) (d : String) : String :=
  match v with
  | none => d
  | some s => if s = "" then d else s

/- ============================================================
   Dispatcher (DiagramRenderer.render) and batch driver
   (renderAllDiagrams), src/diagram-renderer.js lines 165-195 and
   1363-1377.
   ============================================================ -/

/-- A DiagramSpec as the dispatcher consumes it.  Only the fields the
dispatcher itself reads are modelled: `type` (absent field = `none`),
`title`, and `data.description` (flattened to `description`); the
domain payload is consumed by the individual renderers, which are
modelled separately. -/
structure Spec where
  type : Option String
  title : Option String
  description : Option String
deriving DecidableEq, Repr

/-- An abstract JavaScript exception value. -/
structure Exn where
  msg : String
deriving DecidableEq, Repr

/-- A DOM node attached to a diagram container. -/
inductive Node where
  /-- The bordered error box produced by `renderError`. -/
  | errorDiv (msg : String)
  /-- An SVG root produced by a domain renderer (abstract). -/
  | svgRoot
  /-- Raw markup written by `el.innerHTML = ...` in the batch driver's
  catch block. -/
  | rawHTML (s : String)
  /-- The wrapper `div` built by `renderMolecule`. -/
  | wrapper (children : List Node)
  /-- A plain text `div` (molecule text fallback / name label). -/
  | textDiv (s : String)
  /-- The canvas created by `renderMolecule`; `hidden` records
  `canvas.style.display = 'none'`. -/
  | canvas (hidden : Bool)
deriving Repr

/-- Message of the placeholder for a missing or typeless spec
(`"无图形规格"` in the source). -/
def noSpecMsg : String := "无图形规格"

/-- Message used by the dispatcher's catch block when the spec carries
neither a description nor a title. -/
def renderFailMsg : String := "图形渲染失败"

/-- The message the dispatcher's catch block passes to `renderError`:
`spec.data?.description || spec.title || "图形渲染失败"`. -/
def catchMsg (s : Spec) : String :=
  jsOrStr s.description (jsOrStr s.title renderFailMsg)

/-- The thirteen type tags with an explicit `case` in the dispatcher's
`switch`. -/
def dispatchTags : List String :=
  ["geometry", "function_graph", "coordinate", "force", "circuit",
   "optics", "molecule", "reaction", "apparatus", "cell",
   "process_flow", "geographic", "generic_svg"]

/-- Where the dispatcher sends a spec: the guard clause's error
placeholder, a named `case` branch, or the `default` branch (the
generic fallback). -/
inductive Routed where
  | errorPlaceholder (msg : String)
  | renderer (tag : String)
  | genericFallback
deriving DecidableEq, Repr

/-- The dispatch decision of `DiagramRenderer.render`: a `null` spec or
a falsy `type` (absent or empty) is rejected by the guard
`if (!spec || !spec.type) return this.renderError("无图形规格")`;
otherwise the `switch` selects the matching `case`, with unknown tags
falling to `default` (the generic renderer). -/
def route (ospec : Option Spec) : Routed :=
  match ospec with
  | none => .errorPlaceholder noSpecMsg
  | some s =>
    match s.type with
    | none => .errorPlaceholder noSpecMsg
    | some t =>
      if t = "" then .errorPlaceholder noSpecMsg
      else if t ∈ dispatchTags then .renderer t
      else .genericFallback

/-- The dispatcher `DiagramRenderer.render` with its `try`/`catch`.
`core` stands for the body of the `switch`: the selected domain
renderer, which either appends nodes to the container (`ok`) or raises
an internal exception (`error`).  The result is the list of nodes the
call appends to the container: the guard clause and the catch block
both append the `renderError` box instead of propagating. -/
def renderDispatch (core : Spec → Except Exn (List Node))
    (ospec : Option Spec) : List Node :=
  match ospec with
  | none => [Node.errorDiv noSpecMsg]
  | some s =>
    if jsTruthyStr s.type then
      match core s with
      | .ok out => out
      | .error _ => [Node.errorDiv (catchMsg s)]
    else [Node.errorDiv noSpecMsg]

/-- A diagram container (`.diagram-container[data-diagram]`).  `attr`
is the result of `JSON.parse(el.dataset.diagram)`: `.error` when the
attribute is not valid JSON (the parse throws), otherwise the parsed
spec (`none` for a parsed `null` or other falsy value).  `rendered`
is the `data-rendered` idempotence flag and `children` the container's
current child nodes. -/
structure Container where
  attr : Except Unit (Option Spec)
  rendered : Bool
  children : List Node

/-- The markup the batch driver writes with `el.innerHTML = ...` when
processing a container throws (malformed JSON in `data-diagram`). -/
def batchFailHTML : String := "图形渲染失败"

/-- One iteration of the batch driver's loop body for a single
container: skip when already marked, otherwise parse, render, and mark
— with the catch block replacing the container's content by the error
markup (and not marking it). -/
def processContainer (core : Spec → Except Exn (List Node))
    (c : Container) : Container :=
  if c.rendered then c
  else
    match c.attr with
    | .error _ => { c with children := [Node.rawHTML batchFailHTML] }
    | .ok ospec =>
      { c with children := c.children ++ renderDispatch core ospec,
               rendered := true }

/-- The batch driver `renderAllDiagrams`: every container of the
document is processed in order, each by the guarded loop body. -/
def renderAllDiagrams (core : Spec → Except Exn (List Node))
    (doc : List Container) : List Container :=
  doc.map (processContainer core)

/-- A renderer core that always succeeds with an SVG root, used to
exercise the batch driver on concrete documents. -/
def coreOk : Spec → Except Exn (List Node) := fun _ => .ok [Node.svgRoot]

/-- A container whose `data-diagram` attribute is not valid JSON, so
`JSON.parse` throws in the batch driver's `try` block. -/
def badJsonContainer : Container := ⟨.error (), false, []⟩

/- ============================================================
   Geometry renderer (DiagramRenderer.renderGeometry),
   src/diagram-renderer.js lines 200-327.
   ============================================================ -/

/-- A declared point `{id, x, y}`. -/
structure GPoint where
  id : String
  x : ℚ
  y : ℚ
deriving DecidableEq, Repr

/-- A segment is a pair of point ids (`seg[0]`, `seg[1]`). -/
abbrev GSeg := String × String

/-- An auxiliary dashed segment `{from, to, label?}`. -/
structure GAux where
  src : String
  dst : String
  label : Option String
deriving DecidableEq, Repr

/-- An angle mark `{vertex, value?, mark}`. -/
structure GAngle where
  vertex : String
  value : Option String
  mark : Bool
deriving DecidableEq, Repr

/-- An edge label `{from, to, text}`. -/
structure GLabel where
  src : String
  dst : String
  text : String
deriving DecidableEq, Repr

/-- A circle `{center, radius}` whose center is a point id. -/
structure GCircle where
  center : String
  radius : ℚ
deriving DecidableEq, Repr

/-- The `data` payload of a geometry spec. -/
structure GeoData where
  points : List GPoint
  segments : List GSeg
  angles : List GAngle
  labels : List GLabel
  circles : List GCircle
  auxiliary : List GAux
deriving Repr

/-- The `ptMap` lookup: `points.forEach(p => ptMap[p.id] = p)` lets a
later duplicate id overwrite an earlier one, and `ptMap[id]` is
`undefined` (`none`) for an undeclared id. -/
def ptLookup (points : List GPoint) (id : String) : Option GPoint :=
  points.foldl (fun acc p => if p.id = id then some p else acc) none

/-- The x extents collected for the bounding box: every declared
point's x, and `center.x ± radius` for every circle whose center
resolves. -/
def geoAllX (g : GeoData) : List ℚ :=
  g.points.map (·.x) ++ g.circles.flatMap (fun c =>
    match ptLookup g.points c.center with
    | some p => [p.x - c.radius, p.x + c.radius]
    | none => [])

/-- The y extents collected for the bounding box. -/
def geoAllY (g : GeoData) : List ℚ :=
  g.points.map (·.y) ++ g.circles.flatMap (fun c =>
    match ptLookup g.points c.center with
    | some p => [p.y - c.radius, p.y + c.radius]
    | none => [])

/-- The source substitutes `allX = [0, 4]; allY = [0, 3]` when `allX`
is empty (no points and no resolvable circles). -/
def geoXs (g : GeoData) : List ℚ :=
  if geoAllX g = [] then [0, 4] else geoAllX g

/-- See `geoXs`; the source tests emptiness of `allX` only, and `allY`
is empty exactly when `allX` is. -/
def geoYs (g : GeoData) : List ℚ :=
  if geoAllX g = [] then [0, 3] else geoAllY g

/-- Evaluation of `Math.min(...l)` over a list that the renderer guarantees to be
non-empty (the `[]` case is unreachable and returns 0). -/
def listMin : List ℚ → ℚ
  | [] => 0
  | x :: xs => xs.foldl min x

/-- Evaluation of `Math.max(...l)` over a non-empty list (see `listMin`). -/
def listMax : List ℚ → ℚ
  | [] => 0
  | x :: xs => xs.foldl max x

/-- Lower-left corner of the semantic bounding box. -/
def geoMinX (g : GeoData) : ℚ := listMin (geoXs g)

/-- Right edge of the semantic bounding box. -/
def geoMaxX (g : GeoData) : ℚ := listMax (geoXs g)

/-- Bottom edge of the semantic bounding box. -/
def geoMinY (g : GeoData) : ℚ := listMin (geoYs g)

/-- Top edge of the semantic bounding box. -/
def geoMaxY (g : GeoData) : ℚ := listMax (geoYs g)

/-- Source line `rangeX = maxX - minX || 4`: a degenerate (zero-width) horizontal
extent falls back to the default width 4. -/
def geoRangeX (g : GeoData) : ℚ :=
  if geoMaxX g - geoMinX g = 0 then 4 else geoMaxX g - geoMinX g

/-- Source line `rangeY = maxY - minY || 3`: a degenerate vertical extent falls
back to the default height 3. -/
def geoRangeY (g : GeoData) : ℚ :=
  if geoMaxY g - geoMinY g = 0 then 3 else geoMaxY g - geoMinY g

/-- The uniform scale
`Math.min((W-2*pad)/rangeX, (H-2*pad)/rangeY)` with `W=360`, `H=280`,
`pad=40`, carried through `jsDiv` so a zero denominator would surface
as a non-finite (`none`) factor. -/
def geoScale (g : GeoData) : Option ℚ :=
  (jsDiv 280 (geoRangeX g)).bind fun a =>
    (jsDiv 200 (geoRangeY g)).map fun b => min a b

/-- The same scale as a total rational, used by the coordinate maps
(the denominators are proved non-zero in `c6_scale_finiteness`). -/
def geoScaleQ (g : GeoData) : ℚ :=
  min (280 / geoRangeX g) (200 / geoRangeY g)

/-- Horizontal coordinate map of the geometry renderer (centering the
scaled box inside the padded 360x280 canvas). -/
def geoTx (g : GeoData) (x : ℚ) : ℚ :=
  40 + (x - geoMinX g) * geoScaleQ g + (280 - geoRangeX g * geoScaleQ g) / 2

/-- Vertical coordinate map of the geometry renderer (flipped: larger
semantic y maps to smaller pixel y). -/
def geoTy (g : GeoData) (y : ℚ) : ℚ :=
  280 - 40 - (y - geoMinY g) * geoScaleQ g - (200 - geoRangeY g * geoScaleQ g) / 2

/-- A vector primitive emitted by the geometry renderer.  Glyphs whose
pixel geometry involves `atan2`/`sqrt` (angle arcs, corner brackets,
edge-label offsets) carry their defining points instead of transcendental
coordinates. -/
inductive GPrim where
  | bgRect
  | circleP (cx cy r : ℚ)
  | lineP (x1 y1 x2 y2 : ℚ) (dashed : Bool)
  | textP (x y : ℚ) (s : String)
  | cornerBracket (vx vy : ℚ) (c1 c2 : GPoint)
  | angleArc (vx vy : ℚ) (c1 c2 : GPoint)
  | angleValueText (vx vy : ℚ) (c1 c2 : GPoint) (value : String)
  | pointDot (x y : ℚ) (id : String)
  | edgeLabelText (p1 p2 : GPoint) (text : String)
  | titleText (s : String)
deriving DecidableEq, Repr

/-- Circles whose `center` resolves are drawn; the rest are skipped. -/
def circlePrims (g : GeoData) : List GPrim :=
  g.circles.filterMap fun c =>
    match ptLookup g.points c.center with
    | some p => some (.circleP (geoTx g p.x) (geoTy g p.y) (c.radius * geoScaleQ g))
    | none => none

/-- The primitives one auxiliary entry contributes: a dashed line and
an optional italic label at the midpoint when both endpoints resolve,
nothing otherwise. -/
def auxPrimOf (P : List GPoint) (tx ty : ℚ → ℚ) (a : GAux) : List GPrim :=
  match ptLookup P a.src, ptLookup P a.dst with
  | some p1, some p2 =>
    [.lineP (tx p1.x) (ty p1.y) (tx p2.x) (ty p2.y) true] ++
    (match a.label with
     | some l =>
       if l = "" then []
       else [.textP ((tx p1.x + tx p2.x) / 2 + 8) ((ty p1.y + ty p2.y) / 2) l]
     | none => [])
  | _, _ => []

/-- Auxiliary dashed segments whose two endpoints resolve are drawn;
the rest are skipped. -/
def auxPrims (g : GeoData) : List GPrim :=
  g.auxiliary.flatMap (auxPrimOf g.points (geoTx g) (geoTy g))

/-- The solid line one segment contributes when both its endpoints
resolve. -/
def segPrimOf (P : List GPoint) (tx ty : ℚ → ℚ) (s : GSeg) : Option GPrim :=
  match ptLookup P s.1, ptLookup P s.2 with
  | some p1, some p2 =>
    some (.lineP (tx p1.x) (ty p1.y) (tx p2.x) (ty p2.y) false)
  | _, _ => none

/-- Segments whose two endpoints resolve are drawn; the rest are
skipped. -/
def segPrims (g : GeoData) : List GPrim :=
  g.segments.filterMap (segPrimOf g.points (geoTx g) (geoTy g))

/-- The points adjacent to `vt` through segments and auxiliary
segments, as collected by the angle-mark loop: for each segment, each
end equal to the vertex contributes the other end when it resolves;
auxiliary segments follow the same rule and come after all
segments.  `connSegContrib` is the contribution of one segment. -/
def connSegContrib (P : List GPoint) (vt : String) (s : GSeg) : List GPoint :=
  (if s.1 = vt then (ptLookup P s.2).toList else []) ++
  (if s.2 = vt then (ptLookup P s.1).toList else [])

/-- See `connPts`: the contribution of one auxiliary segment. -/
def connAuxContrib (P : List GPoint) (vt : String) (a : GAux) : List GPoint :=
  (if a.src = vt then (ptLookup P a.dst).toList else []) ++
  (if a.dst = vt then (ptLookup P a.src).toList else [])

/-- See the doc comment above `connSegContrib`. -/
def connPts (g : GeoData) (vt : String) : List GPoint :=
  g.segments.flatMap (connSegContrib g.points vt) ++
  g.auxiliary.flatMap (connAuxContrib g.points vt)

/-- Substring membership over character lists (the semantics of
JavaScript `String.prototype.includes`). -/
def charsHasPrefix : List Char → List Char → Bool
  | [], _ => true
  | _ :: _, [] => false
  | p :: ps, c :: cs => p == c && charsHasPrefix ps cs

/-- See `charsHasPrefix`: does `pat` occur contiguously in the second
list? -/
def charsHasSub (pat : List Char) : List Char → Bool
  | [] => pat.isEmpty
  | c :: cs => charsHasPrefix pat (c :: cs) || charsHasSub pat cs

/-- String form of `charsHasSub`: JavaScript `s.includes(pat)`. -/
def strIncludes (s pat : String) : Bool := charsHasSub pat.data s.data

/-- The source's right-angle test
`a.value && (a.value.includes("90") || a.value === "direct_angle")`:
a truthy value that contains the substring `"90"` or equals
`"direct_angle"`. -/
def isRightValue (v : Option String) : Bool :=
  match v with
  | none => false
  | some s => (s ≠ "" : Bool) && (strIncludes s "90" || s == "direct_angle")

/-- The primitives one angle entry contributes: nothing when the vertex
does not resolve or has fewer than two adjacent ends; otherwise the
corner bracket (marked and right), or the circular arc (marked, not
right), followed by the value text for a truthy value other than
`"direct_angle"`. -/
def anglePrims (g : GeoData) (a : GAngle) : List GPrim :=
  match ptLookup g.points a.vertex with
  | none => []
  | some vp =>
    match connPts g a.vertex with
    | c1 :: c2 :: _ =>
      let vx := geoTx g vp.x
      let vy := geoTy g vp.y
      (if a.mark && isRightValue a.value then [.cornerBracket vx vy c1 c2]
       else if a.mark then [.angleArc vx vy c1 c2]
       else []) ++
      (match a.value with
       | some v =>
         if v ≠ "" && v ≠ "direct_angle" then [.angleValueText vx vy c1 c2 v]
         else []
       | none => [])
    | _ => []

/-- Every declared point is drawn as a dot with its id as a bold label,
offset away from the nearest bounding-box edge (the two x conditions
are applied in sequence, the second overriding the first). -/
def pointPrims (g : GeoData) : List GPrim :=
  g.points.flatMap fun p =>
    let px := geoTx g p.x
    let py := geoTy g p.y
    let offY : ℚ := if p.y ≤ geoMinY g + geoRangeY g * (3/10) then 16 else -12
    let offX : ℚ :=
      if p.x ≥ geoMaxX g - geoRangeX g * (1/5) then 10
      else if p.x ≤ geoMinX g + geoRangeX g * (1/5) then -10
      else 0
    [.pointDot px py p.id, .textP (px + offX) (py + offY) p.id]

/-- Edge labels whose two endpoints resolve are drawn (offset normal to
the edge, which involves `sqrt`, so the primitive carries the two
points); the rest are skipped.  `labelPrimOf` is one label's
contribution. -/
def labelPrimOf (P : List GPoint) (l : GLabel) : Option GPrim :=
  match ptLookup P l.src, ptLookup P l.dst with
  | some p1, some p2 => some (.edgeLabelText p1 p2 l.text)
  | _, _ => none

/-- See the doc comment above `labelPrimOf`. -/
def labelPrims (g : GeoData) : List GPrim :=
  g.labels.filterMap (labelPrimOf g.points)

/-- Everything `renderGeometry` appends to its SVG root, in source
order: background, circles, auxiliary segments, segments, angle marks,
points, edge labels, and the optional title caption. -/
def geoPrims (g : GeoData) (title : Option String) : List GPrim :=
  [.bgRect] ++ circlePrims g ++ auxPrims g ++ segPrims g ++
  g.angles.flatMap (anglePrims g) ++ pointPrims g ++ labelPrims g ++
  (match title with
   | some t => if t = "" then [] else [.titleText t]
   | none => [])

/-- The x range of the function-graph renderer after the
length check `safeArr(d.xRange).length === 2 ? d.xRange : [-5, 5]`. -/
def fgXPair (xr : List ℚ) : ℚ × ℚ :=
  match xr with
  | [a, b] => (a, b)
  | _ => (-5, 5)

/-- The y range of the function-graph renderer after its length
check. -/
def fgYPair (yr : List ℚ) : ℚ × ℚ :=
  match yr with
  | [c, d] => (c, d)
  | _ => (-5, 5)

/-- The function-graph horizontal scale
`sx = (W - 2*pad) / (xRange[1] - xRange[0])` with `W=380`, `pad=40`;
`none` models the non-finite value JavaScript produces on a zero-width
range. -/
def fgScaleX (xr : List ℚ) : Option ℚ :=
  jsDiv 300 ((fgXPair xr).2 - (fgXPair xr).1)

/-- The function-graph vertical scale
`sy = (H - 2*pad) / (yRange[1] - yRange[0])` with `H=300`, `pad=40`. -/
def fgScaleY (yr : List ℚ) : Option ℚ :=
  jsDiv 220 ((fgYPair yr).2 - (fgYPair yr).1)

/-- Does a primitive use the right-angle corner-bracket glyph? -/
def isBracketPrim : GPrim → Bool
  | .cornerBracket _ _ _ _ => true
  | _ => false

/-- Does a primitive use the circular angle-arc glyph? -/
def isArcPrim : GPrim → Bool
  | .angleArc _ _ _ _ => true
  | _ => false

/-- A right triangle with a marked angle at `B` whose declared value is
the string `"190°"` — a numeric value other than 90 degrees. -/
def geoEx190 : GeoData :=
  { points := [⟨"A", 0, 0⟩, ⟨"B", 4, 0⟩, ⟨"C", 4, 3⟩],
    segments := [("B", "A"), ("B", "C")],
    angles := [⟨"B", some "190°", true⟩],
    labels := [], circles := [], auxiliary := [] }

/-- The triangle of `geoEx190` with declared angle value `"60°"`. -/
def geoEx60 : GeoData :=
  { points := [⟨"A", 0, 0⟩, ⟨"B", 4, 0⟩, ⟨"C", 4, 3⟩],
    segments := [("B", "A"), ("B", "C")],
    angles := [⟨"B", some "60°", true⟩],
    labels := [], circles := [], auxiliary := [] }

/-- A one-point spec with a segment to the undeclared id `"Z"`. -/
def geoExDangling : GeoData :=
  { points := [⟨"A", 0, 0⟩],
    segments := [("A", "Z")],
    angles := [], labels := [], circles := [], auxiliary := [] }

/- ============================================================
   FunctionGraph curve sampler (DiagramRenderer.renderFunctionGraph),
   src/diagram-renderer.js lines 332-430.
   ============================================================ -/

/-- The sample abscissas of the curve loop
`for (let x = xRange[0]; x <= xRange[1]; x += step)` with
`step = (xRange[1] - xRange[0]) / 300`.  Under the exact arithmetic of
this embedding the loop visits precisely `a + i*step` for
`i = 0, …, 300` when `a < b`, and nothing when `b < a` (the guard
fails at once).  For `a = b` the JavaScript loop would not terminate
(zero step); the claims under verification exclude that case and this
embedding returns no samples there. -/
def fgSamples (a b : ℚ) : List ℚ :=
  if a < b then (List.range 301).map (fun i : ℕ => a + (i : ℚ) * ((b - a) / 300))
  else []

/-- The horizontal pixel map of the function-graph renderer,
`tx = pad + (x - xRange[0]) * sx` (see `fgScaleX` for the guarded
scale; this total form is used under the `a ≠ b` hypotheses of the
claims). -/
def fgTx (a b x : ℚ) : ℚ := 40 + (x - a) * (300 / (b - a))

/-- The vertical pixel map, `ty = H - pad - (y - yRange[0]) * sy`. -/
def fgTy (c d y : ℚ) : ℚ := 300 - 40 - (y - c) * (220 / (d - c))

/-- The points of one expression's sampled path.  `f` is the
evaluator's verdict at each sample (`none` for `NaN`/non-finite); a
sample is dropped — lifting the pen — when the verdict is `none` or the
value exceeds the y range by more than the 10-unit margin
(`y < yRange[0] - 10 || y > yRange[1] + 10`); every retained sample
contributes the mapped pixel pair. -/
def fgPathPoints (f : ℚ → Option ℚ) (xr yr : List ℚ) : List (ℚ × ℚ) :=
  ((fgSamples (fgXPair xr).1 (fgXPair xr).2).filterMap fun x =>
    match f x with
    | none => none
    | some y =>
      if y < (fgYPair yr).1 - 10 ∨ y > (fgYPair yr).2 + 10 then none
      else some (fgTx (fgXPair xr).1 (fgXPair xr).2 x,
                 fgTy (fgYPair yr).1 (fgYPair yr).2 y))

/- ============================================================
   Optics renderer (DiagramRenderer.renderOptics),
   src/diagram-renderer.js lines 723-790.
   ============================================================ -/

/-- An optics element `{type, position?, focalLength?, height?}`. -/
structure OEl where
  type : String
  position : Option ℚ
  focalLength : Option ℚ
  height : Option ℚ
deriving DecidableEq, Repr

/-- The `data` payload of an optics spec.  `rays` is the boolean value
of `d.rays !== false` (so an absent field is `true`). -/
structure OpticsData where
  elements : List OEl
  axisRange : List ℚ
  rays : Bool
deriving Repr

/-- The axis range after the length check
`safeArr(d.axisRange).length === 2 ? d.axisRange : [-30, 30]`. -/
def oAxisPair (ar : List ℚ) : ℚ × ℚ :=
  match ar with
  | [r0, r1] => (r0, r1)
  | _ => (-30, 30)

/-- The optics scale `sx = (W - 2*pad) / (axisRange[1] - axisRange[0])`
with `W=400`, `pad=30`.  Total rational division: on a present
degenerate range JavaScript's value is non-finite and draws no rays,
and this embedding's value 0 also fails the ray guard, so the guarded
behaviour below agrees. -/
def oSx (d : OpticsData) : ℚ :=
  340 / ((oAxisPair d.axisRange).2 - (oAxisPair d.axisRange).1)

/-- The optics horizontal pixel map `tx`. -/
def oTx (d : OpticsData) (x : ℚ) : ℚ :=
  30 + (x - (oAxisPair d.axisRange).1) * oSx d

/-- The state accumulated by the element loop: the last lens position
and scaled focal length, and the last object position and scaled half
height (all `null` until assigned). -/
structure OAcc where
  lensX : Option ℚ
  focalLen : Option ℚ
  objX : Option ℚ
  objH : Option ℚ
deriving DecidableEq, Repr

/-- One step of the element loop: a convex or concave lens records
`lensX = tx(position || 0)` and `focalLen = (focalLength || 10) * sx`;
an object records `objX` and `objH = (height || 3) * sx * 0.5`; other
types leave the state unchanged. -/
def oStep (d : OpticsData) (acc : OAcc) (el : OEl) : OAcc :=
  let px := oTx d (jsOrQ el.position 0)
  if el.type = "convex_lens" ∨ el.type = "concave_lens" then
    { acc with lensX := some px,
               focalLen := some (jsOrQ el.focalLength 10 * oSx d) }
  else if el.type = "object" then
    { acc with objX := some px,
               objH := some (jsOrQ el.height 3 * oSx d * (1/2)) }
  else acc

/-- The element-loop state after all elements. -/
def opticsAcc (d : OpticsData) : OAcc :=
  d.elements.foldl (oStep d) ⟨none, none, none, none⟩

/-- The ray-construction guard: rays are traced only when ray tracing
is enabled, a lens and an object were both seen, and
`Math.abs(u) > 1 && Math.abs(u - focalLen) > 1` — a threshold of one
canvas pixel on the scaled distances, not one axis unit. -/
def opticsGuard (d : OpticsData) : Bool :=
  match d.rays, (opticsAcc d).lensX, (opticsAcc d).focalLen,
        (opticsAcc d).objX, (opticsAcc d).objH with
  | true, some lensX, some f, some objX, some _ =>
    decide (1 < |lensX - objX|) && decide (1 < |lensX - objX - f|)
  | _, _, _, _, _ => false

/-- The thin-lens quantities the imaging block computes when the guard
passes: the scaled object distance `u = lensX - objX`, the scaled image
distance `v = focalLen * u / (u - focalLen)`, and the scaled signed
image height `-(v / u) * objH` (negative = inverted, drawn below the
axis). -/
def opticsUVH (d : OpticsData) : Option (ℚ × ℚ × ℚ) :=
  match d.rays, (opticsAcc d).lensX, (opticsAcc d).focalLen,
        (opticsAcc d).objX, (opticsAcc d).objH with
  | true, some lensX, some f, some objX, some objH =>
    let u := lensX - objX
    if 1 < |u| ∧ 1 < |u - f| then
      let v := f * u / (u - f)
      some (u, v, -(v / u) * objH)
    else none
  | _, _, _, _, _ => none

/-- A primitive emitted by the optics renderer (text captions are
omitted; the lens Bezier outlines are carried abstractly by
`lensGlyph`). -/
inductive OPrim where
  | axisLine
  | lensGlyph (t : String) (x : ℚ)
  | focusDot (x : ℚ)
  | objectGlyph (x h : ℚ)
  | imageLine (x h : ℚ) (virtualIm : Bool)
  | rayLine (x1 y1 x2 y2 : ℚ)
  | titleText (s : String)
deriving DecidableEq, Repr

/-- The glyphs one element contributes: lens outline (with the two
focus dots for a convex lens), or the object arrow. -/
def oElPrims (d : OpticsData) (el : OEl) : List OPrim :=
  let px := oTx d (jsOrQ el.position 0)
  if el.type = "convex_lens" then
    [.lensGlyph "convex_lens" px,
     .focusDot (px - jsOrQ el.focalLength 10 * oSx d),
     .focusDot (px + jsOrQ el.focalLength 10 * oSx d)]
  else if el.type = "concave_lens" then [.lensGlyph "concave_lens" px]
  else if el.type = "object" then
    [.objectGlyph px (jsOrQ el.height 3 * oSx d * (1/2))]
  else []

/-- The imaging block: inside the guard it draws the image line (when
its pixel position is inside the padded canvas, dashed when virtual),
the parallel ray to the lens, its refracted continuation to the image
when the image is real, and the through-center ray (`cy = 120`). -/
def opticsImagingPrims (d : OpticsData) : List OPrim :=
  match d.rays, (opticsAcc d).lensX, (opticsAcc d).focalLen,
        (opticsAcc d).objX, (opticsAcc d).objH with
  | true, some lensX, some f, some objX, some objH =>
    let u := lensX - objX
    if 1 < |u| ∧ 1 < |u - f| then
      let v := f * u / (u - f)
      let imgH := -(v / u) * objH
      let imgX := lensX + v
      (if 30 < imgX ∧ imgX < 370 then
        [.imageLine imgX imgH (decide (v < 0))] else []) ++
      [.rayLine objX (120 - objH) lensX (120 - objH)] ++
      (if 0 < v then [.rayLine lensX (120 - objH) imgX (120 - imgH)] else []) ++
      [.rayLine objX (120 - objH)
        (if 0 < v then imgX else lensX + (lensX - objX))
        (120 + ((120 - objH - 120) / (objX - lensX)) *
          ((if 0 < v then imgX else lensX + (lensX - objX)) - lensX))]
    else []
  | _, _, _, _, _ => []

/-- Everything `renderOptics` emits, in source order: the dashed
optical axis, each element's glyphs, the imaging construction, and the
optional title. -/
def renderOpticsPrims (d : OpticsData) (title : Option String) : List OPrim :=
  [.axisLine] ++ d.elements.flatMap (oElPrims d) ++ opticsImagingPrims d ++
  (match title with
   | some t => if t = "" then [] else [.titleText t]
   | none => [])

/-- Is a primitive one of the construction-ray lines? -/
def isRayPrim : OPrim → Bool
  | .rayLine _ _ _ _ => true
  | _ => false

/-- The spec of the thin-lens test case: convex lens of focal length 10
at position 0, object of height 4 at position -20, default axis range
`[-30, 30]` (scale `sx = 340/60 = 17/3`), ray tracing on. -/
def opticsExPaper : OpticsData :=
  { elements := [⟨"convex_lens", some 0, some 10, none⟩,
                 ⟨"object", some (-20), none, some 4⟩],
    axisRange := [-30, 30], rays := true }

/-- The same lens with the object only half an axis unit away at
position -1/2. -/
def opticsExNear : OpticsData :=
  { elements := [⟨"convex_lens", some 0, some 10, none⟩,
                 ⟨"object", some (-1/2), none, some 3⟩],
    axisRange := [-30, 30], rays := true }

/- ============================================================
   Molecule renderer (DiagramRenderer.renderMolecule),
   src/diagram-renderer.js lines 796-848.
   ============================================================ -/

/-- The error text for an empty structural string
(`'SMILES 为空，无法渲染分子结构'`). -/
def molErrMsg : String := "SMILES 为空，无法渲染分子结构"

/-- Model of `renderMolecule` on its three control paths: an empty
`smiles` short-circuits to `renderError`; otherwise a wrapper `div` is
appended holding the canvas and the optional name label; when the
drawing collaborator (`SmilesDrawer`) is absent from the runtime, the
canvas is hidden and a monospace text `div` showing
`'SMILES: ' + smiles` is inserted before it.  (When the collaborator is
present its asynchronous drawing on the canvas is outside this
model.) -/
def renderMolecule (smiles name : String) (collabPresent : Bool) : List Node :=
  if smiles = "" then [Node.errorDiv molErrMsg]
  else if collabPresent then
    [Node.wrapper ([Node.canvas false] ++
      (if name = "" then [] else [Node.textDiv name]))]
  else
    [Node.wrapper ([Node.textDiv ("SMILES: " ++ smiles)] ++ [Node.canvas true] ++
      (if name = "" then [] else [Node.textDiv name]))]

/- ============================================================
   Expression evaluator (evalExpr in renderFunctionGraph),
   src/diagram-renderer.js lines 380-395.
   ============================================================ -/

/-- JavaScript's `\w` word-character class (`[A-Za-z0-9_]`), which
defines the `\b` boundaries of the rewrite's regular expressions. -/
def isWordChar (c : Char) : Bool := c.isAlpha || c.isDigit || c = '_'

/-- Is there a `\b` boundary before the current position, given the
previous character (`none` at the start of the string)? -/
def boundaryBefore : Option Char → Bool
  | none => true
  | some c => !isWordChar c

/-- Is there a `\b` boundary at the start of the remaining
characters? -/
def boundaryAfterL : List Char → Bool
  | [] => true
  | c :: _ => !isWordChar c

/-- Character comparison, case-insensitively when `ci` (the `/i` flag
of the `pi` rewrite). -/
def lowerEq (ci : Bool) (a b : Char) : Bool :=
  if ci then a.toLower == b.toLower else a == b

/-- Does the pattern match the next characters (prefix match, flag
aware)? -/
def charsMatchPat (ci : Bool) : List Char → List Char → Bool
  | [], _ => true
  | _ :: _, [] => false
  | p :: ps, c :: cs => lowerEq ci p c && charsMatchPat ci ps cs

/-- One global word-bounded regex replacement
(`s.replace(/\bpat\b/g, rep)`) as a left-to-right scan: at each
position, when the (non-empty) pattern `p0 :: ps` matches and both
ends sit on `\b` boundaries, the replacement is emitted and scanning
resumes after the matched text (whose last character, a word
character, is the pattern's last character up to case); otherwise one
character is copied.  `fuel` only bounds the structural recursion; the
callers pass the input length, which a scan never exceeds, so the
fuel-exhausted branch is unreachable. -/
def replaceWordAux (ci : Bool) (p0 : Char) (ps rep : List Char) :
    Nat → Option Char → List Char → List Char
  | 0, _, s => s
  | _ + 1, _, [] => []
  | fuel + 1, prev, c :: cs =>
    if charsMatchPat ci (p0 :: ps) (c :: cs) && boundaryBefore prev &&
       boundaryAfterL (cs.drop ps.length) then
      rep ++ replaceWordAux ci p0 ps rep fuel (some (ps.getLastD p0)) (cs.drop ps.length)
    else c :: replaceWordAux ci p0 ps rep fuel (some c) cs

/-- String form of `replaceWordAux`: case-sensitive word replacement. -/
def jsReplaceWord (s pat rep : String) : String :=
  match pat.data with
  | [] => s
  | p0 :: ps => ⟨replaceWordAux false p0 ps rep.data s.data.length none s.data⟩

/-- Case-insensitive word replacement (the `/gi` flag). -/
def jsReplaceWordCI (s pat rep : String) : String :=
  match pat.data with
  | [] => s
  | p0 :: ps => ⟨replaceWordAux true p0 ps rep.data s.data.length none s.data⟩

/-- Model of the final pass `s.replace` of every caret by `**`. -/
def replaceCarets (l : List Char) : List Char :=
  l.flatMap fun c => if c = '^' then ['*', '*'] else [c]

/-- The whole rewrite chain of `evalExpr`, in source order; the result
is the JavaScript text handed to `new Function('x', 'return ' + ...)`
and evaluated, so every identifier left in it is referenced by that
evaluation. -/
def evalExprRewrite (expr : String) : String :=
  let s1 := jsReplaceWord expr "sin" "Math.sin"
  let s2 := jsReplaceWord s1 "cos" "Math.cos"
  let s3 := jsReplaceWord s2 "tan" "Math.tan"
  let s4 := jsReplaceWord s3 "abs" "Math.abs"
  let s5 := jsReplaceWord s4 "sqrt" "Math.sqrt"
  let s6 := jsReplaceWord s5 "ln" "Math.log"
  let s7 := jsReplaceWord s6 "log" "Math.log10"
  let s8 := jsReplaceWord s7 "exp" "Math.exp"
  let s9 := jsReplaceWordCI s8 "pi" "Math.PI"
  ⟨replaceCarets s9.data⟩

/-- Scanner splitting a character list into its maximal word-character
runs (`acc` holds the current run, reversed). -/
def wordRunsAux (acc : List Char) : List Char → List (List Char)
  | [] => if acc.isEmpty then [] else [acc.reverse]
  | c :: cs =>
    if isWordChar c then wordRunsAux (c :: acc) cs
    else if acc.isEmpty then wordRunsAux [] cs
    else acc.reverse :: wordRunsAux [] cs

/-- The identifiers occurring in a piece of JavaScript text: its
maximal word-character runs that do not start with a digit. -/
def identWords (s : String) : List String :=
  ((wordRunsAux [] s.data).filter fun r =>
    match r with
    | [] => false
    | c :: _ => c.isAlpha || c = '_').map fun r => ⟨r⟩

/-- The names the specification allows the rewritten expression to
reference: the `Math` namespace members the rewrite targets, and the
bound variable `x`. -/
def allowedIdents : List String :=
  ["Math", "sin", "cos", "tan", "abs", "sqrt", "log", "log10", "exp", "PI", "x"]

/- ============================================================
   Theorems: the claims C1-C10 and their supporting lemmas
   ============================================================ -/

/-- Claim C10: a `null` spec, or a spec whose `type` field is absent or
empty, is answered with the error placeholder box and without throwing;
such a spec is not routed to the generic fallback — the `default`
branch of the `switch` is reached exactly by specs with a present,
non-empty, unrecognized type. -/
theorem c10_null_spec_error_routing :
    route none = .errorPlaceholder noSpecMsg ∧
    (∀ ti de, route (some ⟨none, ti, de⟩) = .errorPlaceholder noSpecMsg) ∧
    (∀ ti de, route (some ⟨some "", ti, de⟩) = .errorPlaceholder noSpecMsg) ∧
    (∀ ospec, route ospec = .genericFallback ↔
      ∃ s t, ospec = some s ∧ s.type = some t ∧ t ≠ "" ∧ t ∉ dispatchTags) := by
  refine ⟨rfl, fun ti de => rfl, fun ti de => rfl, fun ospec => ?_⟩
  constructor
  · intro h
    match ospec with
    | none => simp [route] at h
    | some s =>
      match hs : s.type with
      | none => simp [route, hs] at h
      | some t =>
        refine ⟨s, t, rfl, hs, ?_, ?_⟩
        · intro ht
          simp [route, hs, ht] at h
        · intro hmem
          by_cases ht : t = "" <;> simp [route, hs, ht, hmem] at h
  · rintro ⟨s, t, rfl, hs, ht, hmem⟩
    simp [route, hs, ht, hmem]

/-- Claim C2: an internal exception in a domain renderer is caught at
the dispatcher boundary and replaced by the visible error box appended
to that spec's container; the batch driver processes every container
of the document independently of its siblings' outcomes, so a failure
in one container never aborts or alters the rendering of another. -/
theorem c2_renderer_fault_isolated :
    (∀ (core : Spec → Except Exn (List Node)) (s : Spec) (e : Exn),
      jsTruthyStr s.type = true → core s = .error e →
      renderDispatch core (some s) = [Node.errorDiv (catchMsg s)]) ∧
    (∀ (core : Spec → Except Exn (List Node)) (doc : List Container),
      (renderAllDiagrams core doc).length = doc.length ∧
      ∀ i (h : i < doc.length),
        (renderAllDiagrams core doc).get ⟨i, by simpa [renderAllDiagrams]⟩ =
          processContainer core (doc.get ⟨i, h⟩)) := by
  refine ⟨fun core s e ht hc => ?_, fun core doc => ⟨by simp [renderAllDiagrams], ?_⟩⟩
  · simp [renderDispatch, ht, hc]
  · intro i h
    simp [renderAllDiagrams]

/-- Witness for C2 at a concrete failing renderer and a concrete
spec. -/
theorem c2_renderer_fault_isolated_witness :
    renderDispatch (fun _ => .error ⟨"boom"⟩)
      (some ⟨some "geometry", none, none⟩) =
      [Node.errorDiv (catchMsg ⟨some "geometry", none, none⟩)] :=
  c2_renderer_fault_isolated.1 (fun _ => .error ⟨"boom"⟩)
    ⟨some "geometry", none, none⟩ ⟨"boom"⟩ (by decide) rfl

/-- Counterexample to claim C3 as stated: the batch driver does not
mark every processed container.  A container whose `data-diagram`
attribute fails to parse is processed by the first pass (its content is
replaced by the error markup) but its `data-rendered` flag is set only
after a successful parse-and-render, so it is still unmarked and is
re-processed by a second pass. -/
theorem c3_unparsed_container_unmarked :
    (renderAllDiagrams coreOk [badJsonContainer]).map Container.rendered =
      [false] := rfl

/-- Claim C3 amended: the batch driver marks a container rendered
immediately after processing it whenever its attribute parses as JSON
— whether the render succeeded or ended in a failure handled at the
dispatcher boundary; a container whose attribute fails to parse gets
the error markup written in place but stays unmarked.  Since the
re-processing of an unmarked failed container rewrites the same error
markup, invoking the batch driver twice still leaves exactly the state
of one invocation, and every container that parsed is skipped by the
second pass. -/
theorem c3_batch_marking_idempotent :
    (∀ (core : Spec → Except Exn (List Node)) (c : Container) (ospec : Option Spec),
      c.attr = .ok ospec → (processContainer core c).rendered = true) ∧
    (∀ (core : Spec → Except Exn (List Node)) (doc : List Container),
      renderAllDiagrams core (renderAllDiagrams core doc) =
        renderAllDiagrams core doc) := by
  constructor
  · intro core c ospec hattr
    by_cases hr : c.rendered
    · simp [processContainer, hr]
    · simp [processContainer, hr, hattr]
  · intro core doc
    simp only [renderAllDiagrams, List.map_map]
    refine List.map_congr_left (fun c _ => ?_)
    show processContainer core (processContainer core c) = processContainer core c
    by_cases hr : c.rendered
    · simp [processContainer, hr]
    · match hattr : c.attr with
      | .error _ => simp [processContainer, hr, hattr]
      | .ok ospec => simp [processContainer, hr, hattr]

/-- Witness for C3's amended theorem: a container that parses but whose
renderer faults is still marked rendered by the pass that processed
it. -/
theorem c3_batch_marking_idempotent_witness :
    (processContainer (fun _ => .error ⟨"boom"⟩)
      ⟨.ok (some ⟨some "geometry", none, none⟩), false, []⟩).rendered = true :=
  c3_batch_marking_idempotent.1 (fun _ => .error ⟨"boom"⟩)
    ⟨.ok (some ⟨some "geometry", none, none⟩), false, []⟩
    (some ⟨some "geometry", none, none⟩) rfl

/-- Folding `min` from `a` stays below folding `max` from `b` whenever
`a ≤ b`. -/
theorem foldl_min_le_foldl_max (l : List ℚ) :
    ∀ a b : ℚ, a ≤ b → l.foldl min a ≤ l.foldl max b := by
  induction l with
  | nil => intro a b h; simpa using h
  | cons x xs ih =>
    intro a b h
    exact ih (min a x) (max b x)
      (le_trans (min_le_left a x) (le_trans h (le_max_left b x)))

/-- The collected minimum never exceeds the collected maximum. -/
theorem listMin_le_listMax (l : List ℚ) : listMin l ≤ listMax l := by
  cases l with
  | nil => exact le_refl 0
  | cons x xs => exact foldl_min_le_foldl_max xs x x le_rfl

/-- The horizontal extent used by the geometry mapper is positive. -/
theorem geoRangeX_pos (g : GeoData) : 0 < geoRangeX g := by
  unfold geoRangeX
  have h : geoMinX g ≤ geoMaxX g := listMin_le_listMax (geoXs g)
  by_cases hz : geoMaxX g - geoMinX g = 0
  · simp [hz]
  · have : 0 ≤ geoMaxX g - geoMinX g := by linarith
    have : 0 < geoMaxX g - geoMinX g := lt_of_le_of_ne this (Ne.symm hz)
    simpa [hz]

/-- The vertical extent used by the geometry mapper is positive. -/
theorem geoRangeY_pos (g : GeoData) : 0 < geoRangeY g := by
  unfold geoRangeY
  have h : geoMinY g ≤ geoMaxY g := listMin_le_listMax (geoYs g)
  by_cases hz : geoMaxY g - geoMinY g = 0
  · simp [hz]
  · have : 0 ≤ geoMaxY g - geoMinY g := by linarith
    have : 0 < geoMaxY g - geoMinY g := lt_of_le_of_ne this (Ne.symm hz)
    simpa [hz]

/-- Counterexample to claim C6 as stated: the function-graph renderer
does not synthesize a default box for a present but degenerate range.
With `xRange = [2, 2]` the length check passes, the divisor
`xRange[1] - xRange[0]` is zero, and the computed scale factor is
non-finite (`Infinity` in the source, `none` here) — the safe default
is only substituted when the range is absent or not 2 elements. -/
theorem c6_degenerate_xrange_nonfinite_scale :
    fgScaleX [2, 2] = none := by
  simp [fgScaleX, fgXPair, jsDiv]

/-- Claim C6 amended: the geometry renderer synthesizes its default
4x3 box for absent or degenerate extents, so its scale factor is
always finite and positive; the function-graph renderer substitutes
its default range only when the supplied range is absent or not a
2-element list, so its scale factor is finite when the two endpoints
differ (and on a malformed range equals 300/10 = 30), but not for a
present degenerate range. -/
theorem c6_scale_finiteness :
    (∀ g : GeoData, ∃ s, geoScale g = some s ∧ 0 < s) ∧
    (∀ a b : ℚ, a ≠ b → ∃ s, fgScaleX [a, b] = some s ∧ s ≠ 0) ∧
    (∀ xr : List ℚ, xr.length ≠ 2 → fgScaleX xr = some 30) := by
  refine ⟨fun g => ?_, fun a b hab => ?_, fun xr hlen => ?_⟩
  · have hx := geoRangeX_pos g
    have hy := geoRangeY_pos g
    refine ⟨min (280 / geoRangeX g) (200 / geoRangeY g), ?_, ?_⟩
    · simp [geoScale, jsDiv, ne_of_gt hx, ne_of_gt hy]
    · exact lt_min (div_pos (by norm_num) hx) (div_pos (by norm_num) hy)
  · refine ⟨300 / (b - a), ?_, ?_⟩
    · have hba : ¬b = a := fun h => hab h.symm
      simp [fgScaleX, fgXPair, jsDiv, sub_eq_zero, hba]
    · exact div_ne_zero (by norm_num) (sub_ne_zero.mpr (Ne.symm hab))
  · match xr, hlen with
    | [], _ => simp [fgScaleX, fgXPair, jsDiv]; norm_num
    | [a], _ => simp [fgScaleX, fgXPair, jsDiv]; norm_num
    | (a :: b :: c :: t), h => simp [fgScaleX, fgXPair, jsDiv]; norm_num

/-- Witness for C6's amended theorem at concrete ranges: distinct
endpoints `[0, 1]` and the malformed range `[]`. -/
theorem c6_scale_finiteness_witness :
    (∃ s, fgScaleX [0, 1] = some s ∧ s ≠ 0) ∧ fgScaleX [] = some 30 :=
  ⟨c6_scale_finiteness.2.1 0 1 (by norm_num),
   c6_scale_finiteness.2.2 [] (by norm_num)⟩

/-- Counterexample to claim C5 as stated: the declared value `"190°"`
does not denote 90 degrees, yet the renderer emits the right-angle
corner bracket for it and no circular arc, because the source tests
`a.value.includes("90")` — a substring match that `"190°"`
satisfies. -/
theorem c5_bracket_for_190 :
    (geoPrims geoEx190 none).any isBracketPrim = true ∧
    (geoPrims geoEx190 none).any isArcPrim = false := by
  constructor <;>
    simp [geoPrims, geoEx190, circlePrims, auxPrims, auxPrimOf, segPrims,
      segPrimOf, anglePrims, pointPrims, labelPrims, labelPrimOf, connPts,
      connSegContrib, connAuxContrib, ptLookup, isRightValue, strIncludes,
      charsHasSub, charsHasPrefix, isBracketPrim, isArcPrim]

/-- Claim C5 amended: for a marked angle whose vertex resolves and has
at least two adjacent ends, the corner-bracket glyph is emitted exactly
when the declared value is truthy and either contains the substring
`"90"` or equals `"direct_angle"` (so e.g. `"190°"` also gets the
bracket); otherwise the circular-arc glyph is emitted. -/
theorem c5_angle_glyph_selection :
    ∀ (g : GeoData) (t : Option String) (a : GAngle) (vp c1 c2 : GPoint)
      (rest : List GPoint),
      a ∈ g.angles → a.mark = true →
      ptLookup g.points a.vertex = some vp →
      connPts g a.vertex = c1 :: c2 :: rest →
      (isRightValue a.value = true →
        GPrim.cornerBracket (geoTx g vp.x) (geoTy g vp.y) c1 c2 ∈ geoPrims g t) ∧
      (isRightValue a.value = false →
        GPrim.angleArc (geoTx g vp.x) (geoTy g vp.y) c1 c2 ∈ geoPrims g t) := by
  intro g t a vp c1 c2 rest ha hmark hvp hconn
  have hmem : ∀ p, p ∈ anglePrims g a → p ∈ geoPrims g t := by
    intro p hp
    have hfm : p ∈ g.angles.flatMap (anglePrims g) := List.mem_flatMap.mpr ⟨a, ha, hp⟩
    simp only [geoPrims, List.mem_append]
    tauto
  constructor
  · intro hr
    exact hmem _ (by simp [anglePrims, hvp, hconn, hmark, hr])
  · intro hr
    exact hmem _ (by simp [anglePrims, hvp, hconn, hmark, hr])

/-- Witness for C5's amended theorem: the same triangle with declared
value `"60°"` (not a right-angle value) gets the circular arc glyph. -/
theorem c5_angle_glyph_selection_witness :
    GPrim.angleArc (geoTx geoEx60 4) (geoTy geoEx60 0) ⟨"A", 0, 0⟩ ⟨"C", 4, 3⟩ ∈
      geoPrims geoEx60 none :=
  (c5_angle_glyph_selection geoEx60 none ⟨"B", some "60°", true⟩ ⟨"B", 4, 0⟩
    ⟨"A", 0, 0⟩ ⟨"C", 4, 3⟩ [] (by decide) rfl (by decide) (by decide)).2
    (by decide)

/-- Erasing an element that `f` maps to `none` does not change a
`filterMap`. -/
theorem filterMap_erase_of_none {α β : Type} [BEq α] [LawfulBEq α]
    (f : α → Option β) (a : α) (h : f a = none) :
    ∀ l : List α, (l.erase a).filterMap f = l.filterMap f := by
  intro l
  induction l with
  | nil => rfl
  | cons b t ih =>
    rw [List.erase_cons]
    rcases eq_or_ne b a with hba | hba
    · subst hba
      rw [if_pos (by simp)]
      simp [List.filterMap_cons, h]
    · rw [if_neg (by simp [hba])]
      cases hfb : f b <;> simp [List.filterMap_cons, hfb, ih]

/-- Erasing an element that `f` maps to `[]` does not change a
`flatMap`. -/
theorem flatMap_erase_of_nil {α β : Type} [BEq α] [LawfulBEq α]
    (f : α → List β) (a : α) (h : f a = []) :
    ∀ l : List α, (l.erase a).flatMap f = l.flatMap f := by
  intro l
  induction l with
  | nil => rfl
  | cons b t ih =>
    rw [List.erase_cons]
    rcases eq_or_ne b a with hba | hba
    · subst hba
      rw [if_pos (by simp)]
      simp [List.flatMap_cons, h]
    · rw [if_neg (by simp [hba])]
      simp [List.flatMap_cons, ih]

/-- Pointwise-equal functions give equal `flatMap`s. -/
theorem flatMap_congr_mem {α β : Type} {l : List α} {f h : α → List β}
    (H : ∀ a ∈ l, f a = h a) : l.flatMap f = l.flatMap h := by
  induction l with
  | nil => rfl
  | cons b t ih =>
    simp only [List.flatMap_cons]
    rw [H b (List.mem_cons_self b t), ih fun a ha => H a (List.mem_cons_of_mem b ha)]

/-- A segment with an unresolvable endpoint contributes no adjacent
point to any resolvable vertex in the angle-mark collection. -/
theorem connSeg_dangling_nil (P : List GPoint) (s : GSeg) (vt : String)
    (hdang : ptLookup P s.1 = none ∨ ptLookup P s.2 = none)
    (hvt : (ptLookup P vt).isSome) :
    connSegContrib P vt s = [] := by
  unfold connSegContrib
  rcases hdang with h | h
  · rcases eq_or_ne s.1 vt with e | e
    · rw [e] at h; rw [h] at hvt; simp at hvt
    · rcases eq_or_ne s.2 vt with e2 | e2 <;> simp [e, e2, h]
  · rcases eq_or_ne s.2 vt with e2 | e2
    · rw [e2] at h; rw [h] at hvt; simp at hvt
    · rcases eq_or_ne s.1 vt with e | e <;> simp [e, e2, h]

/-- An auxiliary segment with an unresolvable endpoint contributes no
adjacent point to any resolvable vertex in the angle-mark
collection. -/
theorem connAux_dangling_nil (P : List GPoint) (a : GAux) (vt : String)
    (hdang : ptLookup P a.src = none ∨ ptLookup P a.dst = none)
    (hvt : (ptLookup P vt).isSome) :
    connAuxContrib P vt a = [] := by
  unfold connAuxContrib
  rcases hdang with h | h
  · rcases eq_or_ne a.src vt with e | e
    · rw [e] at h; rw [h] at hvt; simp at hvt
    · rcases eq_or_ne a.dst vt with e2 | e2 <;> simp [e, e2, h]
  · rcases eq_or_ne a.dst vt with e2 | e2
    · rw [e2] at h; rw [h] at hvt; simp at hvt
    · rcases eq_or_ne a.src vt with e | e <;> simp [e, e2, h]

/-- Claim C8: a geometry element referencing an undeclared point id is
silently skipped — removing a dangling segment, auxiliary segment,
angle (vertex undeclared), or edge label from the spec leaves the
renderer's entire output unchanged, so the element contributes no
primitive (and the renderer, a total function here, completes for the
spec that contains it). -/
theorem c8_dangling_reference_omitted :
    (∀ (g : GeoData) (t : Option String) (s : GSeg), s ∈ g.segments →
      ptLookup g.points s.1 = none ∨ ptLookup g.points s.2 = none →
      geoPrims { g with segments := g.segments.erase s } t = geoPrims g t) ∧
    (∀ (g : GeoData) (t : Option String) (a : GAux), a ∈ g.auxiliary →
      ptLookup g.points a.src = none ∨ ptLookup g.points a.dst = none →
      geoPrims { g with auxiliary := g.auxiliary.erase a } t = geoPrims g t) ∧
    (∀ (g : GeoData) (t : Option String) (an : GAngle), an ∈ g.angles →
      ptLookup g.points an.vertex = none →
      geoPrims { g with angles := g.angles.erase an } t = geoPrims g t) ∧
    (∀ (g : GeoData) (t : Option String) (l : GLabel), l ∈ g.labels →
      ptLookup g.points l.src = none ∨ ptLookup g.points l.dst = none →
      geoPrims { g with labels := g.labels.erase l } t = geoPrims g t) := by
  refine ⟨?_, ?_, ?_, ?_⟩
  · rintro ⟨P, S, A, L, C, X⟩ t s _ hdang
    simp only at hdang
    have htx : geoTx ⟨P, S.erase s, A, L, C, X⟩ = geoTx ⟨P, S, A, L, C, X⟩ := rfl
    have hty : geoTy ⟨P, S.erase s, A, L, C, X⟩ = geoTy ⟨P, S, A, L, C, X⟩ := rfl
    have hnil : segPrimOf P (geoTx ⟨P, S, A, L, C, X⟩) (geoTy ⟨P, S, A, L, C, X⟩) s = none := by
      unfold segPrimOf
      rcases hdang with h | h
      · cases h2 : ptLookup P s.2 <;> simp [h, h2]
      · cases h1 : ptLookup P s.1 <;> simp [h, h1]
    have hseg : segPrims ⟨P, S.erase s, A, L, C, X⟩ = segPrims ⟨P, S, A, L, C, X⟩ := by
      simp only [segPrims, htx, hty]
      exact filterMap_erase_of_none _ s hnil S
    have hang : A.flatMap (anglePrims ⟨P, S.erase s, A, L, C, X⟩) =
        A.flatMap (anglePrims ⟨P, S, A, L, C, X⟩) := by
      refine flatMap_congr_mem fun a _ => ?_
      simp only [anglePrims]
      cases hvp : ptLookup P a.vertex with
      | none => rfl
      | some vp =>
        have hvt : (ptLookup P a.vertex).isSome := by simp [hvp]
        have hc : connPts ⟨P, S.erase s, A, L, C, X⟩ a.vertex =
            connPts ⟨P, S, A, L, C, X⟩ a.vertex := by
          simp only [connPts]
          rw [flatMap_erase_of_nil (connSegContrib P a.vertex) s
            (connSeg_dangling_nil P s a.vertex hdang hvt) S]
        rw [hc]
        simp only [htx, hty]
    have hcirc : circlePrims ⟨P, S.erase s, A, L, C, X⟩ = circlePrims ⟨P, S, A, L, C, X⟩ := rfl
    have haux : auxPrims ⟨P, S.erase s, A, L, C, X⟩ = auxPrims ⟨P, S, A, L, C, X⟩ := rfl
    have hpt : pointPrims ⟨P, S.erase s, A, L, C, X⟩ = pointPrims ⟨P, S, A, L, C, X⟩ := rfl
    have hlab : labelPrims ⟨P, S.erase s, A, L, C, X⟩ = labelPrims ⟨P, S, A, L, C, X⟩ := rfl
    simp only [geoPrims]
    rw [hcirc, haux, hseg, hang, hpt, hlab]
  · rintro ⟨P, S, A, L, C, X⟩ t a _ hdang
    simp only at hdang
    have htx : geoTx ⟨P, S, A, L, C, X.erase a⟩ = geoTx ⟨P, S, A, L, C, X⟩ := rfl
    have hty : geoTy ⟨P, S, A, L, C, X.erase a⟩ = geoTy ⟨P, S, A, L, C, X⟩ := rfl
    have hnil : auxPrimOf P (geoTx ⟨P, S, A, L, C, X⟩) (geoTy ⟨P, S, A, L, C, X⟩) a = [] := by
      unfold auxPrimOf
      rcases hdang with h | h
      · cases h2 : ptLookup P a.dst <;> simp [h, h2]
      · cases h1 : ptLookup P a.src <;> simp [h, h1]
    have haux : auxPrims ⟨P, S, A, L, C, X.erase a⟩ = auxPrims ⟨P, S, A, L, C, X⟩ := by
      simp only [auxPrims, htx, hty]
      exact flatMap_erase_of_nil _ a hnil X
    have hang : A.flatMap (anglePrims ⟨P, S, A, L, C, X.erase a⟩) =
        A.flatMap (anglePrims ⟨P, S, A, L, C, X⟩) := by
      refine flatMap_congr_mem fun an _ => ?_
      simp only [anglePrims]
      cases hvp : ptLookup P an.vertex with
      | none => rfl
      | some vp =>
        have hvt : (ptLookup P an.vertex).isSome := by simp [hvp]
        have hc : connPts ⟨P, S, A, L, C, X.erase a⟩ an.vertex =
            connPts ⟨P, S, A, L, C, X⟩ an.vertex := by
          simp only [connPts]
          rw [flatMap_erase_of_nil (connAuxContrib P an.vertex) a
            (connAux_dangling_nil P a an.vertex hdang hvt) X]
        rw [hc]
        simp only [htx, hty]
    have hcirc : circlePrims ⟨P, S, A, L, C, X.erase a⟩ = circlePrims ⟨P, S, A, L, C, X⟩ := rfl
    have hseg : segPrims ⟨P, S, A, L, C, X.erase a⟩ = segPrims ⟨P, S, A, L, C, X⟩ := rfl
    have hpt : pointPrims ⟨P, S, A, L, C, X.erase a⟩ = pointPrims ⟨P, S, A, L, C, X⟩ := rfl
    have hlab : labelPrims ⟨P, S, A, L, C, X.erase a⟩ = labelPrims ⟨P, S, A, L, C, X⟩ := rfl
    simp only [geoPrims]
    rw [hcirc, haux, hseg, hang, hpt, hlab]
  · rintro ⟨P, S, A, L, C, X⟩ t an _ hnone
    simp only at hnone
    have hAP : anglePrims ⟨P, S, A.erase an, L, C, X⟩ = anglePrims ⟨P, S, A, L, C, X⟩ := rfl
    have hang : (A.erase an).flatMap (anglePrims ⟨P, S, A.erase an, L, C, X⟩) =
        A.flatMap (anglePrims ⟨P, S, A, L, C, X⟩) := by
      rw [hAP]
      refine flatMap_erase_of_nil _ an ?_ A
      simp [anglePrims, hnone]
    have hcirc : circlePrims ⟨P, S, A.erase an, L, C, X⟩ = circlePrims ⟨P, S, A, L, C, X⟩ := rfl
    have haux : auxPrims ⟨P, S, A.erase an, L, C, X⟩ = auxPrims ⟨P, S, A, L, C, X⟩ := rfl
    have hseg : segPrims ⟨P, S, A.erase an, L, C, X⟩ = segPrims ⟨P, S, A, L, C, X⟩ := rfl
    have hpt : pointPrims ⟨P, S, A.erase an, L, C, X⟩ = pointPrims ⟨P, S, A, L, C, X⟩ := rfl
    have hlab : labelPrims ⟨P, S, A.erase an, L, C, X⟩ = labelPrims ⟨P, S, A, L, C, X⟩ := rfl
    simp only [geoPrims]
    rw [hcirc, haux, hseg, hang, hpt, hlab]
  · rintro ⟨P, S, A, L, C, X⟩ t l _ hdang
    simp only at hdang
    have hnil : labelPrimOf P l = none := by
      unfold labelPrimOf
      rcases hdang with h | h
      · cases h2 : ptLookup P l.dst <;> simp [h, h2]
      · cases h1 : ptLookup P l.src <;> simp [h, h1]
    have hlab : labelPrims ⟨P, S, A, L.erase l, C, X⟩ = labelPrims ⟨P, S, A, L, C, X⟩ := by
      simp only [labelPrims]
      exact filterMap_erase_of_none _ l hnil L
    have hcirc : circlePrims ⟨P, S, A, L.erase l, C, X⟩ = circlePrims ⟨P, S, A, L, C, X⟩ := rfl
    have haux : auxPrims ⟨P, S, A, L.erase l, C, X⟩ = auxPrims ⟨P, S, A, L, C, X⟩ := rfl
    have hseg : segPrims ⟨P, S, A, L.erase l, C, X⟩ = segPrims ⟨P, S, A, L, C, X⟩ := rfl
    have hang : A.flatMap (anglePrims ⟨P, S, A, L.erase l, C, X⟩) =
        A.flatMap (anglePrims ⟨P, S, A, L, C, X⟩) := rfl
    have hpt : pointPrims ⟨P, S, A, L.erase l, C, X⟩ = pointPrims ⟨P, S, A, L, C, X⟩ := rfl
    simp only [geoPrims]
    rw [hcirc, haux, hseg, hang, hpt, hlab]

/-- Witness for C8 at a concrete spec: dropping the dangling segment of
`geoExDangling` leaves the output unchanged. -/
theorem c8_dangling_reference_omitted_witness :
    geoPrims { geoExDangling with
      segments := geoExDangling.segments.erase ("A", "Z") } none =
      geoPrims geoExDangling none :=
  c8_dangling_reference_omitted.1 geoExDangling none ("A", "Z")
    (by decide) (Or.inr (by decide))

/-- Unfolding equation of `fgSamples` on an increasing range. -/
theorem fgSamples_of_lt {a b : ℚ} (h : a < b) :
    fgSamples a b = (List.range 301).map (fun i : ℕ => a + (i : ℚ) * ((b - a) / 300)) := by
  rw [fgSamples, if_pos h]

/-- Counterexample to claim C7 as stated: with `xRange = yRange =
[-5, 5]` and the constant expression value 14 — finite, and inside the
10-unit overshoot margin the sampler tolerates — the first path point
is `(40, -158)`: its y pixel coordinate lies far outside the padded
canvas band `[40, 260]` (and outside the canvas itself), because
retained samples are not clipped to the visible envelope. -/
theorem c7_path_point_outside_padding :
    ((40 : ℚ), (-158 : ℚ)) ∈ fgPathPoints (fun _ => some 14) [-5, 5] [-5, 5] ∧
    ((-158 : ℚ) < 40) := by
  refine ⟨?_, by norm_num⟩
  simp only [fgPathPoints, fgXPair, fgYPair]
  refine List.mem_filterMap.mpr ⟨-5, ?_, ?_⟩
  · rw [fgSamples_of_lt (by norm_num : (-5:ℚ) < 5)]
    exact List.mem_map.mpr ⟨0, List.mem_range.mpr (by norm_num), by norm_num⟩
  · have hcond : ¬((14:ℚ) < -5 - 10 ∨ (14:ℚ) > 5 + 10) := by norm_num
    simp only [if_neg hcond, Option.some.injEq, Prod.mk.injEq]
    constructor
    · norm_num [fgTx]
    · norm_num [fgTy]

/-- Claim C7 amended: for `xRange = [a, b]` with `a < b` and
`yRange = [c, d]` with `c < d`, every generated path point's x pixel
coordinate lies inside the padded band `[40, 340]`, and its y pixel
coordinate lies inside the padded band `[40, 260]` extended above and
below by the sampler's 10-unit overshoot margin (`10·sy` pixels, where
`sy = 220/(d-c)`) — not inside the padded band itself. -/
theorem c7_path_point_bounds :
    ∀ (f : ℚ → Option ℚ) (a b c d : ℚ), a < b → c < d →
      ∀ p ∈ fgPathPoints f [a, b] [c, d],
        40 ≤ p.1 ∧ p.1 ≤ 340 ∧
        40 - 10 * (220 / (d - c)) ≤ p.2 ∧
        p.2 ≤ 260 + 10 * (220 / (d - c)) := by
  intro f a b c d hab hcd p hp
  have hba : (0:ℚ) < b - a := by linarith
  have hdc : (0:ℚ) < d - c := by linarith
  simp only [fgPathPoints, fgXPair, fgYPair] at hp
  obtain ⟨x, hx, hgx⟩ := List.mem_filterMap.mp hp
  rw [fgSamples_of_lt hab] at hx
  obtain ⟨i, hi, hxi⟩ := List.mem_map.mp hx
  rw [List.mem_range] at hi
  cases hfy : f x with
  | none => rw [hfy] at hgx; simp at hgx
  | some y =>
    rw [hfy] at hgx
    by_cases hcond : y < c - 10 ∨ y > d + 10
    · simp [hcond] at hgx
    · simp only [if_neg hcond, Option.some.injEq] at hgx
      push_neg at hcond
      obtain ⟨hy1, hy2⟩ := hcond
      subst hgx
      have hsy : (0:ℚ) < 220 / (d - c) := div_pos (by norm_num) hdc
      have h220 : (d - c) * (220 / (d - c)) = 220 := by field_simp
      have hx1 : fgTx a b x = 40 + (i : ℚ) := by
        rw [← hxi]; unfold fgTx; field_simp; ring
      have hi300 : (i : ℚ) ≤ 300 := by exact_mod_cast Nat.lt_succ_iff.mp hi
      refine ⟨?_, ?_, ?_, ?_⟩
      · show (40 : ℚ) ≤ fgTx a b x
        rw [hx1]
        have hi0 : (0 : ℚ) ≤ (i : ℚ) := Nat.cast_nonneg i
        linarith
      · show fgTx a b x ≤ 340
        rw [hx1]; linarith
      · show 40 - 10 * (220 / (d - c)) ≤ fgTy c d y
        unfold fgTy
        nlinarith [mul_le_mul_of_nonneg_right
          (show y - c ≤ (d - c) + 10 by linarith) (le_of_lt hsy)]
      · show fgTy c d y ≤ 260 + 10 * (220 / (d - c))
        unfold fgTy
        nlinarith [mul_le_mul_of_nonneg_right
          (show -(y - c) ≤ 10 by linarith) (le_of_lt hsy)]

/-- Witness for C7's amended theorem: the constant-zero curve on the
unit ranges has `(40, 260)` as a path point, and the theorem bounds it. -/
theorem c7_path_point_bounds_witness :
    40 ≤ (((40 : ℚ), (260 : ℚ)) : ℚ × ℚ).1 ∧
    (((40 : ℚ), (260 : ℚ)) : ℚ × ℚ).1 ≤ 340 ∧
    40 - 10 * (220 / ((1 : ℚ) - 0)) ≤ (((40 : ℚ), (260 : ℚ)) : ℚ × ℚ).2 ∧
    (((40 : ℚ), (260 : ℚ)) : ℚ × ℚ).2 ≤ 260 + 10 * (220 / ((1 : ℚ) - 0)) :=
  c7_path_point_bounds (fun _ => some 0) 0 1 0 1 (by norm_num) (by norm_num)
    (40, 260) (by
      simp only [fgPathPoints, fgXPair, fgYPair]
      refine List.mem_filterMap.mpr ⟨0, ?_, ?_⟩
      · rw [fgSamples_of_lt (by norm_num : (0:ℚ) < 1)]
        exact List.mem_map.mpr ⟨0, List.mem_range.mpr (by norm_num), by norm_num⟩
      · have hcond : ¬((0:ℚ) < 0 - 10 ∨ (0:ℚ) > 1 + 10) := by norm_num
        simp only [if_neg hcond, Option.some.injEq, Prod.mk.injEq]
        constructor
        · norm_num [fgTx]
        · norm_num [fgTy])

/-- Construction rays appear in the optics output exactly when the
pixel-space guard passes. -/
theorem optics_any_ray_eq_guard (d : OpticsData) (t : Option String) :
    (renderOpticsPrims d t).any isRayPrim = opticsGuard d := by
  have hel : (d.elements.flatMap (oElPrims d)).any isRayPrim = false := by
    rw [List.any_eq_false]
    intro x hx
    obtain ⟨el, _, hmem⟩ := List.mem_flatMap.mp hx
    unfold oElPrims at hmem
    split at hmem
    · simp only [List.mem_cons, List.not_mem_nil, or_false] at hmem
      rcases hmem with rfl | rfl | rfl <;> simp [isRayPrim]
    · split at hmem
      · simp only [List.mem_cons, List.not_mem_nil, or_false] at hmem
        subst hmem; simp [isRayPrim]
      · split at hmem
        · simp only [List.mem_cons, List.not_mem_nil, or_false] at hmem
          subst hmem; simp [isRayPrim]
        · exact absurd hmem (List.not_mem_nil x)
  have hti : (match t with
      | some s => if s = "" then [] else [OPrim.titleText s]
      | none => ([] : List OPrim)).any isRayPrim = false := by
    match t with
    | none => rfl
    | some s =>
      by_cases hs : s = "" <;> simp [hs, isRayPrim]
  simp only [renderOpticsPrims, List.any_append, hel, hti, Bool.or_false,
    Bool.false_or]
  have hax : [OPrim.axisLine].any isRayPrim = false := rfl
  rw [hax, Bool.false_or]
  unfold opticsImagingPrims opticsGuard
  cases d.rays with
  | false => rfl
  | true =>
    cases (opticsAcc d).lensX with
    | none => rfl
    | some lensX =>
      cases (opticsAcc d).focalLen with
      | none => rfl
      | some f =>
        cases (opticsAcc d).objX with
        | none => rfl
        | some objX =>
          cases (opticsAcc d).objH with
          | none => rfl
          | some objH =>
            by_cases h1 : 1 < |lensX - objX| <;>
              by_cases h2 : 1 < |lensX - objX - f| <;>
                simp [h1, h2, List.any_append, isRayPrim]

/-- Counterexample to the ray-guard conjunct of claim C4 as stated:
the object of `opticsExNear` sits half a unit from the lens — at and
within 1 axis unit of it — yet the renderer draws the construction
rays, because the source's guard `Math.abs(u) > 1` tests the scaled
pixel distance `u = (lensX - objX)·sx = 17/6 > 1`, not the axis
distance. -/
theorem c4_rays_drawn_within_one_unit :
    (renderOpticsPrims opticsExNear none).any isRayPrim = true ∧
    |(-1/2 : ℚ) - 0| ≤ 1 := by
  constructor
  · rw [optics_any_ray_eq_guard]
    have hacc : opticsAcc opticsExNear =
        ⟨some 200, some (170/3), some (1183/6), some (17/2)⟩ := by
      unfold opticsAcc opticsExNear oStep oTx oSx oAxisPair jsOrQ
      norm_num
      decide
    unfold opticsGuard
    rw [hacc]
    norm_num [opticsExNear, abs_of_pos]
  · rw [abs_of_neg (by norm_num : (-1/2 : ℚ) - 0 < 0)]; norm_num

/-- Claim C4 amended: for the canonical thin-lens spec the imaging
block computes, in scaled pixel units (`sx = 17/3` pixels per axis
unit), `u = 20·sx`, image distance `v = f·u/(u-f) = 20·sx` (twice the
focal length 10, i.e. axis position +20), and signed image height
`-(v/u)·objH = -(4·sx/2)` — a real, inverted image of the object's
height 4; and, in general, the two construction rays are drawn exactly
when ray tracing is enabled, a lens and an object are present, and the
scaled distances from the object to the lens and to the focal point
each exceed one canvas pixel (not one axis unit). -/
theorem c4_thin_lens_image_and_ray_guard :
    opticsUVH opticsExPaper =
      some (20 * (17/3), 20 * (17/3), -(4 * (17/3) * (1/2))) ∧
    (∀ (d : OpticsData) (t : Option String),
      (renderOpticsPrims d t).any isRayPrim = opticsGuard d) := by
  refine ⟨?_, fun d t => optics_any_ray_eq_guard d t⟩
  have hacc : opticsAcc opticsExPaper =
      ⟨some 200, some (170/3), some (260/3), some (34/3)⟩ := by
    unfold opticsAcc opticsExPaper oStep oTx oSx oAxisPair jsOrQ
    norm_num
    decide
  unfold opticsUVH
  rw [hacc]
  norm_num [opticsExPaper, abs_of_pos]

/-- Claim C9: an empty structural string yields the visible short-text
error placeholder, and for a non-empty one with the drawing
collaborator absent the container still receives a non-empty wrapper
whose children include the visible text fallback showing the
notation. -/
theorem c9_molecule_fallback :
    (∀ (name : String) (present : Bool),
      renderMolecule "" name present = [Node.errorDiv molErrMsg]) ∧
    (∀ smiles name : String, smiles ≠ "" →
      ∃ kids, renderMolecule smiles name false = [Node.wrapper kids] ∧
        Node.textDiv ("SMILES: " ++ smiles) ∈ kids ∧ kids ≠ []) := by
  constructor
  · intro name p
    rfl
  · intro smiles name h
    refine ⟨[Node.textDiv ("SMILES: " ++ smiles)] ++ [Node.canvas true] ++
      (if name = "" then [] else [Node.textDiv name]), ?_, ?_, ?_⟩
    · simp [renderMolecule, h]
    · simp
    · simp

/-- Witness for C9 at the concrete notation string `"CCO"` with no
display name and the collaborator absent. -/
theorem c9_molecule_fallback_witness :
    ∃ kids, renderMolecule "CCO" "" false = [Node.wrapper kids] ∧
      Node.textDiv ("SMILES: " ++ "CCO") ∈ kids ∧ kids ≠ [] :=
  c9_molecule_fallback.2 "CCO" "" (by decide)

/-- Claim C1 is violated by the code: the rewrite chain of `evalExpr`
only substitutes the nine vocabulary words and `^`, and passes every
other identifier through to the `Function` constructor unchanged, so
the expression text `"alert(1)"` reaches dynamic evaluation still
referencing the ambient global `alert` — an identifier outside the
fixed vocabulary and the bound variable. -/
theorem c1_eval_vocabulary_escape :
    evalExprRewrite "alert(1)" = "alert(1)" ∧
    identWords (evalExprRewrite "alert(1)") = ["alert"] ∧
    "alert" ∉ allowedIdents := by
  refine ⟨by decide, by decide, by decide⟩
